import Mathlib

/-!
Verification of the image-composition core of the postermaker backend
(`campaigns/utils.py`): the two-layer compositor `overlay_frame_on_photo`,
the three-layer compositor `create_three_layer_poster`, the mask generators
`create_circular_mask` / `create_rounded_rectangle_mask`, and the
aspect-fill utility `resize_and_crop`.

Modelling conventions:
* A PIL image is a width, a height, a pixel mode and a total pixel function
  (`PImage`).  Pixels are RGBA quadruples of naturals (0..255); single-band
  `L` masks store their value in every channel.
* Python floats are modelled as exact rationals (`ℚ`); Python `int(x)`
  (truncation toward zero) is `pyInt`; Python `//` on ints is `Int.fdiv`.
* `Image.open` / `download_image_from_url` either return a decoded image or
  raise; an image argument of a compositor is therefore an
  `Except String PImage` (`.ok` corresponds to the isinstance(Image.Image)
  branch or a successful decode, `.error` to a raised decode/fetch error).
* Resampling filters (LANCZOS / BILINEAR) are modelled by coordinate
  sampling: the claims under study depend on output dimensions and on
  total-transparency preservation, both shared by every PIL filter.
* `raise ValueError(f"...: {str(e)}")` is modelled by `Except.mapError`
  prefixing the wrapped message.
-/

/-- An RGBA pixel; for single-band (`L`) masks the value is replicated in
every channel and read back from `r`. -/
structure RGBA where
  r : Nat
  g : Nat
  b : Nat
  a : Nat
deriving DecidableEq, Repr

/-- PIL pixel modes that appear in `campaigns/utils.py`. `P` stands for any
mode outside RGB/RGBA/L (palette, CMYK, ...). -/
inductive PMode
  | RGB
  | RGBA
  | L
  | P
deriving DecidableEq, Repr

/-- A PIL image: dimensions, mode and a total pixel function (values outside
the width×height rectangle are irrelevant to every operation below). -/
structure PImage where
  width : Nat
  height : Nat
  mode : PMode
  px : Nat → Nat → RGBA

theorem PImage.ext_iff {im im' : PImage} :
    im = im' ↔ im.width = im'.width ∧ im.height = im'.height ∧
      im.mode = im'.mode ∧ im.px = im'.px := by
  constructor
  · intro h
    subst h
    exact ⟨rfl, rfl, rfl, rfl⟩
  · intro ⟨h1, h2, h3, h4⟩
    cases im
    cases im'
    simp_all

/-- Python `int(x)` on a float: truncation toward zero, on the exact
rational model. -/
def pyInt (q : ℚ) : ℤ := q.num.tdiv (q.den : ℤ)

/-- A single-band mask value, replicated across channels. -/
def mkL (v : Nat) : RGBA := ⟨v, v, v, v⟩

/-- Model of `Image.new(mode, size, color)`; PIL's default fill is 0 (transparent
black). -/
def newImage (mode : PMode) (size : Nat × Nat) (color : RGBA) : PImage :=
  ⟨size.1, size.2, mode, fun _ _ => color⟩

/-- Pixel conversion applied by PIL when a source pixel enters an image of
another mode (paste/convert): gaining membership of a mode without alpha, or
entering RGBA from a mode without alpha, makes the pixel fully opaque. -/
def adaptPx (srcMode dstMode : PMode) (p : RGBA) : RGBA :=
  if dstMode = PMode.RGBA then
    (if srcMode = PMode.RGBA then p else { p with a := 255 })
  else if dstMode = PMode.RGB then { p with a := 255 }
  else p

/-- Model of `image.convert(mode)`. -/
def convertMode (im : PImage) (m : PMode) : PImage :=
  ⟨im.width, im.height, m, fun i j => adaptPx im.mode m (im.px i j)⟩

/-- Model of `image.resize((w, h), filter)`: dimensions become exactly `(w, h)`;
pixel content is coordinate sampling of the source (the resampling filter is
abstracted; every PIL filter is a convex combination of source pixels, so
properties used here — exact output size, preservation of an everywhere-zero
alpha band — hold for the real filters as well). -/
def resizeImg (im : PImage) (w h : Nat) : PImage :=
  ⟨w, h, im.mode, fun i j => im.px (i * im.width / w) (j * im.height / h)⟩

/-- Model of `image.crop((l, t, r, b))`: result is `(r-l)×(b-t)`; PIL pads regions
outside the source with zero pixels. -/
def cropImg (im : PImage) (l t r b : ℤ) : PImage :=
  ⟨(r - l).toNat, (b - t).toNat, im.mode, fun i j =>
    let si : ℤ := l + i
    let sj : ℤ := t + j
    if 0 ≤ si ∧ si < im.width ∧ 0 ≤ sj ∧ sj < im.height then
      im.px si.toNat sj.toNat
    else ⟨0, 0, 0, 0⟩⟩

/-- The mask value PIL reads from a mask image: the alpha band of an RGBA
mask, the single band of an `L` mask. -/
def maskVal (m : PImage) (i j : Nat) : Nat :=
  if m.mode = PMode.RGBA then (m.px i j).a else (m.px i j).r

/-- Per-channel blend of `paste` with a mask value `v` (0 keeps the
destination, 255 takes the source). -/
def blendChan (d s v : Nat) : Nat := (s * v + d * (255 - v)) / 255

/-- Per-pixel blend of `paste` with a mask value. -/
def blendPx (d s : RGBA) (v : Nat) : RGBA :=
  ⟨blendChan d.r s.r v, blendChan d.g s.g v, blendChan d.b s.b v,
    blendChan d.a s.a v⟩

/-- Model of `dst.paste(src, (ox, oy))` without a mask: source pixels (adapted to the
destination mode) replace destination pixels on the overlap; everything
outside the overlap — including any part of `src` falling outside the
destination — is untouched (clipped). -/
def pasteNoMask (dst src : PImage) (ox oy : ℤ) : PImage :=
  ⟨dst.width, dst.height, dst.mode, fun i j =>
    if i < dst.width ∧ j < dst.height ∧
        ox ≤ (i : ℤ) ∧ (i : ℤ) < ox + src.width ∧
        oy ≤ (j : ℤ) ∧ (j : ℤ) < oy + src.height then
      adaptPx src.mode dst.mode (src.px ((i : ℤ) - ox).toNat ((j : ℤ) - oy).toNat)
    else dst.px i j⟩

/-- Model of `dst.paste(src, (ox, oy), mask)`: on the overlap, destination pixels are
blended with (mode-adapted) source pixels under the mask value; outside the
overlap the destination is untouched (off-canvas portions clip silently). -/
def pasteMask (dst src : PImage) (ox oy : ℤ) (m : PImage) : PImage :=
  ⟨dst.width, dst.height, dst.mode, fun i j =>
    if i < dst.width ∧ j < dst.height ∧
        ox ≤ (i : ℤ) ∧ (i : ℤ) < ox + src.width ∧
        oy ≤ (j : ℤ) ∧ (j : ℤ) < oy + src.height then
      blendPx (dst.px i j)
        (adaptPx src.mode dst.mode (src.px ((i : ℤ) - ox).toNat ((j : ℤ) - oy).toNat))
        (maskVal m ((i : ℤ) - ox).toNat ((j : ℤ) - oy).toNat)
    else dst.px i j⟩

/-- Model of `image.putalpha(mask)`: the mask band becomes the alpha channel. -/
def putalphaImg (im m : PImage) : PImage :=
  ⟨im.width, im.height, PMode.RGBA, fun i j => { im.px i j with a := maskVal m i j }⟩

/-- PIL `image.resize` rejects negative dimensions (`ValueError`); modelled as
the fallible resize used wherever the requested size is computed from
parameters. -/
def pilResize (im : PImage) (w h : ℤ) : Except String PImage :=
  if w < 0 ∨ h < 0 then Except.error "Width and height must be >= 0"
  else Except.ok (resizeImg im w.toNat h.toNat)

/-- Pixel-center test for the ellipse inscribed in a `w×h` box (the
rasterization of `ImageDraw.ellipse((0, 0, w, h), fill=255)`). -/
def insideEllipse (w h i j : Nat) : Prop :=
  ((2 * i + 1 - w : ℤ))^2 * (h : ℤ)^2 + ((2 * j + 1 - h : ℤ))^2 * (w : ℤ)^2
    ≤ (w : ℤ)^2 * (h : ℤ)^2

instance (w h i j : Nat) : Decidable (insideEllipse w h i j) := by
  unfold insideEllipse
  infer_instance

/-- Model of `create_circular_mask(size)`: an `L` mask, 255 on the inscribed ellipse
and 0 elsewhere (utils.py lines 59–72). -/
def create_circular_mask (size : Nat × Nat) : PImage :=
  ⟨size.1, size.2, PMode.L, fun i j =>
    if insideEllipse size.1 size.2 i j then mkL 255 else mkL 0⟩

/-- Membership of a doubled-coordinate point in a corner disc of radius
`R` centered at `(cx, cy)`. -/
def inCornerDisc (cx cy x y R : ℤ) : Prop := (x - cx)^2 + (y - cy)^2 ≤ R^2

instance (cx cy x y R : ℤ) : Decidable (inCornerDisc cx cy x y R) := by
  unfold inCornerDisc
  infer_instance

/-- Pixel-center test for the rounded rectangle filling a `w×h` box with
corner radius `r` (the rasterization of `ImageDraw.rounded_rectangle`).
Coordinates are doubled so pixel centers stay integral. -/
def insideRoundedRect (w h : Nat) (r : ℤ) (i j : Nat) : Prop :=
  let x : ℤ := 2 * i + 1
  let y : ℤ := 2 * j + 1
  let W : ℤ := 2 * w
  let H : ℤ := 2 * h
  let R : ℤ := 2 * r
  (R ≤ x ∨ R ≤ y ∨ inCornerDisc R R x y R) ∧
  (x ≤ W - R ∨ R ≤ y ∨ inCornerDisc (W - R) R x y R) ∧
  (R ≤ x ∨ y ≤ H - R ∨ inCornerDisc R (H - R) x y R) ∧
  (x ≤ W - R ∨ y ≤ H - R ∨ inCornerDisc (W - R) (H - R) x y R)

instance (w h : Nat) (r : ℤ) (i j : Nat) : Decidable (insideRoundedRect w h r i j) := by
  unfold insideRoundedRect
  infer_instance

/-- Model of `create_rounded_rectangle_mask(size, radius)`: an `L` mask, 255 on the
rounded rectangle with the given corner radius and 0 elsewhere (utils.py
lines 75–89). -/
def create_rounded_rectangle_mask (size : Nat × Nat) (radius : ℤ) : PImage :=
  ⟨size.1, size.2, PMode.L, fun i j =>
    if insideRoundedRect size.1 size.2 radius i j then mkL 255 else mkL 0⟩

/-- Model of `resize_and_crop(image, target_size)` (utils.py lines 373–410): uniform
scale to cover, then center crop.  The two divisions raise
`ZeroDivisionError` in Python when a height (resp. the aspect quotient) is
zero; both are modelled as errors. -/
def resize_and_crop (image : PImage) (target_size : Nat × Nat) :
    Except String PImage :=
  let target_width := target_size.1
  let target_height := target_size.2
  let img_width := image.width
  let img_height := image.height
  if target_height = 0 ∨ img_height = 0 then Except.error "division by zero"
  else
    let target_quot : ℚ := (target_width : ℚ) / (target_height : ℚ)
    let img_quot : ℚ := (img_width : ℚ) / (img_height : ℚ)
    if target_quot < img_quot then
      -- image is wider than target: height matches, crop width
      let new_height : ℤ := target_height
      let new_width : ℤ := pyInt ((new_height : ℚ) * img_quot)
      match pilResize image new_width new_height with
      | Except.error e => Except.error e
      | Except.ok resized =>
        let left : ℤ := (new_width - target_width).fdiv 2
        Except.ok (cropImg resized left 0 (left + target_width) (target_height : ℤ))
    else
      -- image is taller than target: width matches, crop height
      if img_quot = 0 then Except.error "float division by zero"
      else
        let new_width : ℤ := target_width
        let new_height : ℤ := pyInt ((new_width : ℚ) / img_quot)
        match pilResize image new_width new_height with
        | Except.error e => Except.error e
        | Except.ok resized =>
          let top : ℤ := (new_height - target_height).fdiv 2
          Except.ok (cropImg resized 0 top (target_width : ℤ) (top + target_height))

/-- The preset table of the two-layer pipeline and its `dict.get` fallback
(utils.py lines 294–301): unknown names silently resolve to the
`instagram_post` dimensions. -/
def size_map_get (output_size : String) : Nat × Nat :=
  if output_size = "instagram_post" then (1080, 1080)
  else if output_size = "instagram_story" then (1080, 1920)
  else if output_size = "whatsapp_dp" then (500, 500)
  else (1080, 1080)

/-- The encoded result of a composition handed to Cloudinary: the composed
raster (standing for the encoded buffer), the encoding format, and the
`ContentFile` name. -/
structure ContentFile where
  image : PImage
  format : String
  name : String

/-- What the two-layer compositor hands back: a `ContentFile` when
Cloudinary storage is configured, otherwise a write of the composed image to
`MEDIA_ROOT/<relativePath>` on the local filesystem together with the
returned relative path (utils.py lines 350–367). -/
inductive OverlayOutput
  | contentFile (cf : ContentFile)
  | savedFile (fullPath : String) (relativePath : String) (image : PImage)

/-- Photo normalization of the two-layer compositor (utils.py lines
317–324): convert to RGB when the mode is neither RGB nor RGBA, then resize
to the target when the size differs. -/
def overlay_prepare_photo (photo : PImage) (target : Nat × Nat) : PImage :=
  let photo :=
    if photo.mode ≠ PMode.RGB ∧ photo.mode ≠ PMode.RGBA then
      convertMode photo PMode.RGB
    else photo
  if (photo.width, photo.height) ≠ target then
    resizeImg photo target.1 target.2
  else photo

/-- Frame normalization of the two-layer compositor (utils.py lines
326–332): ensure RGBA, then resize to the target when the size differs. -/
def overlay_prepare_frame (frame : PImage) (target : Nat × Nat) : PImage :=
  let frame :=
    if frame.mode ≠ PMode.RGBA then convertMode frame PMode.RGBA else frame
  if (frame.width, frame.height) ≠ target then
    resizeImg frame target.1 target.2
  else frame

/-- The photo layer of the two-layer composite, before the frame is pasted
(utils.py lines 334–339): the prepared photo itself when it carries alpha,
otherwise the prepared photo pasted into a fresh RGBA canvas. -/
def overlay_base (photo : PImage) (target : Nat × Nat) : PImage :=
  let p := overlay_prepare_photo photo target
  if p.mode = PMode.RGBA then p
  else pasteNoMask (newImage PMode.RGBA target ⟨0, 0, 0, 0⟩) p 0 0

/-- The full two-layer composite (utils.py lines 317–342): photo layer with
the prepared frame pasted on top, using the frame's own alpha as mask. -/
def overlay_compose (photo frame : PImage) (target : Nat × Nat) : PImage :=
  let f := overlay_prepare_frame frame target
  pasteMask (overlay_base photo target) f 0 0 f

/-- Result packaging of the two-layer compositor (utils.py lines 344–367):
a `ContentFile` named `generated/<uuid>.png` under Cloudinary, otherwise a
local write to `MEDIA_ROOT/generated/<uuid>.png` returning the relative
path.  `os.path.join` is modelled by `/`-concatenation. -/
def mkOverlayOutput (using_cloudinary : Bool) (mediaRoot uuidHex : String)
    (img : PImage) : OverlayOutput :=
  let unique_filename := uuidHex ++ ".png"
  if using_cloudinary then
    OverlayOutput.contentFile ⟨img, "PNG", "generated/" ++ unique_filename⟩
  else
    OverlayOutput.savedFile
      (mediaRoot ++ "/" ++ ("generated/" ++ unique_filename))
      ("generated/" ++ unique_filename) img

/-- Model of `overlay_frame_on_photo(user_photo_path, frame_path_or_url,
output_size)` (utils.py lines 276–370).  The photo and frame arguments are
the outcomes of loading (an already-decoded image, or a decode/fetch
error); `using_cloudinary`, `mediaRoot` and `uuidHex` model
`settings.DEFAULT_FILE_STORAGE`, `settings.MEDIA_ROOT` and the
`uuid.uuid4().hex` token.  Any exception inside the body is re-raised as
`ValueError("Error processing images: " + str(e))`. -/
def overlay_frame_on_photo (photoSrc frameSrc : Except String PImage)
    (output_size : String) (using_cloudinary : Bool)
    (mediaRoot uuidHex : String) : Except String OverlayOutput :=
  (do
    let target_size := size_map_get output_size
    let photo ← photoSrc
    let frame ← frameSrc
    pure (mkOverlayOutput using_cloudinary mediaRoot uuidHex
      (overlay_compose photo frame target_size))).mapError
    (fun e => "Error processing images: " ++ e)

/-- The `profile_position` dict of the three-layer compositor: each key may
be absent, in which case the code's `.get` default applies (utils.py lines
161–164). -/
structure ProfilePosition where
  x : Option ℚ
  y : Option ℚ
  scale : Option ℚ
  rotation : Option ℚ

/-- The footprint base `base_profile_size = int(min(target_size) * 0.3)` (utils.py line
167). -/
def base_profile_size (target : Nat × Nat) : ℤ :=
  pyInt (((min target.1 target.2 : Nat) : ℚ) * (3 / 10))

/-- The profile footprint of the three-layer compositor (utils.py lines
169–176): `rectangle` is a portrait box 1.3× taller than wide; every other
shape (circle/square) is a square of side `int(base * scale)`. -/
def profileFootprint (crop_shape : String) (scale : ℚ) (base : ℤ) : ℤ × ℤ :=
  if crop_shape = "rectangle" then
    (pyInt ((base : ℚ) * scale), pyInt ((base : ℚ) * scale * (13 / 10)))
  else
    (pyInt ((base : ℚ) * scale), pyInt ((base : ℚ) * scale))

/-- Mask selection of the three-layer compositor (utils.py lines 200–213):
circle and unrecognized shapes get the circular mask; square and rectangle
get the rounded-rectangle mask with radius `int(profile_width * 0.1)`. -/
def threeLayerMask (crop_shape : String) (w h : Nat) : PImage :=
  if crop_shape = "circle" then create_circular_mask (w, h)
  else if crop_shape = "square" then
    create_rounded_rectangle_mask (w, h) (pyInt ((w : ℚ) * (1 / 10)))
  else if crop_shape = "rectangle" then
    create_rounded_rectangle_mask (w, h) (pyInt ((w : ℚ) * (1 / 10)))
  else create_circular_mask (w, h)

/-- The paste origin `paste_x = int(x - profile_width // 2)` (utils.py lines 221–222): the
center coordinate minus half the footprint (Python floor division on the
int footprint), truncated to an int. -/
def pasteOriginCoord (c : ℚ) (w : ℤ) : ℤ := pyInt (c - ((w.fdiv 2 : ℤ) : ℚ))

/-- PIL `rotate(rotation, expand=False)` keeps the image size; the affine
resampling uses floating-point trigonometry and is abstracted (no claim
depends on rotated pixel values, and the branch is skipped when
`rotation == 0`). -/
def rotateImg (im : PImage) (angle : ℚ) : PImage :=
  ⟨im.width, im.height, im.mode, fun i j => if angle = 0 then im.px i j else im.px j i⟩

/-- Flattening before JPEG encoding (utils.py lines 250–254): paste the
RGBA canvas over an opaque white RGB background using its alpha band as
mask. -/
def flattenOverWhite (canvas : PImage) : PImage :=
  pasteMask (newImage PMode.RGB (canvas.width, canvas.height) ⟨255, 255, 255, 255⟩)
    canvas 0 0
    ⟨canvas.width, canvas.height, PMode.L, fun i j => mkL (canvas.px i j).a⟩

/-- Cover-crop of the profile photo into the `pw×ph` footprint (utils.py
lines 178–194): uniform cover scale (`max` of the axis quotients — raising
`ZeroDivisionError` on a zero-sized profile), resize (PIL rejects a negative
computed size), then center crop to the exact footprint (`crop` rejects a
negative footprint since right < left). -/
def coverFitProfile (profile : PImage) (pw ph : ℤ) : Except String PImage :=
  if profile.width = 0 ∨ profile.height = 0 then Except.error "division by zero"
  else
    let scale_x : ℚ := (pw : ℚ) / (profile.width : ℚ)
    let scale_y : ℚ := (ph : ℚ) / (profile.height : ℚ)
    let scale_factor := max scale_x scale_y
    let new_width := pyInt ((profile.width : ℚ) * scale_factor)
    let new_height := pyInt ((profile.height : ℚ) * scale_factor)
    match pilResize profile new_width new_height with
    | Except.error e => Except.error e
    | Except.ok resized =>
      if pw < 0 ∨ ph < 0 then
        Except.error "Coordinate right is less than left"
      else
        let left := (new_width - pw).fdiv 2
        let top := (new_height - ph).fdiv 2
        Except.ok (cropImg resized left top (left + pw) (top + ph))

/-- The composition body of `create_three_layer_poster` on decoded images
(utils.py lines 123–254), up to but not including result packaging: canvas
at poster size with the poster pasted, cover-fitted rotated masked profile
pasted at the placement origin, frame resized to the poster size and pasted,
canvas flattened over white for JPEG encoding. -/
def create3_compose (poster profile frame : PImage) (pos : ProfilePosition)
    (crop_shape : String) : Except String PImage :=
  let target_size := (poster.width, poster.height)
  let posterN :=
    if poster.mode ≠ PMode.RGB ∧ poster.mode ≠ PMode.RGBA then
      convertMode poster PMode.RGB
    else poster
  let canvas0 := pasteNoMask (newImage PMode.RGBA target_size ⟨0, 0, 0, 0⟩) posterN 0 0
  let profileN :=
    if profile.mode ≠ PMode.RGB ∧ profile.mode ≠ PMode.RGBA then
      convertMode profile PMode.RGBA
    else profile
  let x := pos.x.getD ((target_size.1 / 2 : Nat) : ℚ)
  let y := pos.y.getD ((target_size.2 / 2 : Nat) : ℚ)
  let scale := pos.scale.getD 1
  let rotation := pos.rotation.getD 0
  let fp := profileFootprint crop_shape scale (base_profile_size target_size)
  match coverFitProfile profileN fp.1 fp.2 with
  | Except.error e => Except.error e
  | Except.ok fitted =>
    let fitted :=
      if rotation ≠ 0 then rotateImg fitted rotation else fitted
    let mask := threeLayerMask crop_shape fp.1.toNat fp.2.toNat
    let profile_masked := putalphaImg
      (pasteNoMask (newImage PMode.RGBA (fp.1.toNat, fp.2.toNat) ⟨0, 0, 0, 0⟩)
        fitted 0 0) mask
    let canvas1 := pasteMask canvas0 profile_masked
      (pasteOriginCoord x fp.1) (pasteOriginCoord y fp.2) profile_masked
    let frameN :=
      if frame.mode ≠ PMode.RGBA then convertMode frame PMode.RGBA else frame
    let frameN :=
      if (frameN.width, frameN.height) ≠ target_size then
        resizeImg frameN target_size.1 target_size.2
      else frameN
    let canvas2 := pasteMask canvas1 frameN 0 0 frameN
    Except.ok (if canvas2.mode = PMode.RGBA then flattenOverWhite canvas2 else canvas2)

/-- Model of `create_three_layer_poster(...)` (utils.py lines 92–273): load the three
layers (poster, then profile, then frame), compose, flatten and package the
JPEG `ContentFile` named `generated/<uuid>.jpg` — both storage branches
(lines 259–270) build the identical `ContentFile`.  The `output_size`
parameter is part of the signature (line 97) and is never read in the body.
Any exception is re-raised as
`ValueError("Error creating 3-layer poster: " + str(e))`. -/
def create_three_layer_poster (posterSrc profileSrc frameSrc : Except String PImage)
    (pos : ProfilePosition) (output_size crop_shape : String)
    (using_cloudinary : Bool) (uuidHex : String) : Except String ContentFile :=
  (match posterSrc with
  | Except.error e => Except.error e
  | Except.ok poster =>
    match profileSrc with
    | Except.error e => Except.error e
    | Except.ok profile =>
      match frameSrc with
      | Except.error e => Except.error e
      | Except.ok frame =>
        match create3_compose poster profile frame pos crop_shape with
        | Except.error e => Except.error e
        | Except.ok canvas =>
          let cf : ContentFile := ⟨canvas, "JPEG", "generated/" ++ (uuidHex ++ ".jpg")⟩
          if using_cloudinary then Except.ok cf else Except.ok cf).mapError
    (fun e => "Error creating 3-layer poster: " ++ e)

/-- Returns `true` iff a wrapped call returned a result rather than raising. -/
def exceptOk {α : Type} (e : Except String α) : Bool :=
  match e with
  | Except.ok _ => true
  | Except.error _ => false

/-- Dimensions of a two-layer result (through either storage branch). -/
def overlayResultSize (e : Except String OverlayOutput) : Option (Nat × Nat) :=
  match e with
  | Except.ok (OverlayOutput.contentFile cf) => some (cf.image.width, cf.image.height)
  | Except.ok (OverlayOutput.savedFile _ _ im) => some (im.width, im.height)
  | Except.error _ => none

/-- The composed raster inside a two-layer result. -/
def overlayResultImage (e : Except String OverlayOutput) : Option PImage :=
  match e with
  | Except.ok (OverlayOutput.contentFile cf) => some cf.image
  | Except.ok (OverlayOutput.savedFile _ _ im) => some im
  | Except.error _ => none

/-- Returns `some true` iff a successful two-layer result is an in-memory buffer
(`ContentFile`), `some false` iff it is a write to the local filesystem. -/
def isBufferResult (e : Except String OverlayOutput) : Option Bool :=
  match e with
  | Except.ok (OverlayOutput.contentFile _) => some true
  | Except.ok (OverlayOutput.savedFile _ _ _) => some false
  | Except.error _ => none

/-- Dimensions of a three-layer result. -/
def threeResultSize (e : Except String ContentFile) : Option (Nat × Nat) :=
  match e with
  | Except.ok cf => some (cf.image.width, cf.image.height)
  | Except.error _ => none

theorem pasteMask_width (dst src : PImage) (ox oy : ℤ) (m : PImage) :
    (pasteMask dst src ox oy m).width = dst.width := rfl

theorem pasteMask_height (dst src : PImage) (ox oy : ℤ) (m : PImage) :
    (pasteMask dst src ox oy m).height = dst.height := rfl

theorem pasteMask_mode (dst src : PImage) (ox oy : ℤ) (m : PImage) :
    (pasteMask dst src ox oy m).mode = dst.mode := rfl

theorem pasteNoMask_width (dst src : PImage) (ox oy : ℤ) :
    (pasteNoMask dst src ox oy).width = dst.width := rfl

theorem pasteNoMask_height (dst src : PImage) (ox oy : ℤ) :
    (pasteNoMask dst src ox oy).height = dst.height := rfl

theorem flattenOverWhite_width (c : PImage) : (flattenOverWhite c).width = c.width := rfl

theorem flattenOverWhite_height (c : PImage) : (flattenOverWhite c).height = c.height := rfl

theorem convertMode_width (im : PImage) (m : PMode) : (convertMode im m).width = im.width := rfl

theorem convertMode_height (im : PImage) (m : PMode) : (convertMode im m).height = im.height := rfl

theorem resizeImg_width (im : PImage) (w h : Nat) : (resizeImg im w h).width = w := rfl

theorem resizeImg_height (im : PImage) (w h : Nat) : (resizeImg im w h).height = h := rfl

/-- The truncation `pyInt` is the identity on integers. -/
theorem pyInt_intCast (n : ℤ) : pyInt (n : ℚ) = n := by
  unfold pyInt
  simp [Rat.intCast_num, Rat.intCast_den]

/-- The truncation `pyInt` of a nonnegative rational is nonnegative. -/
theorem pyInt_nonneg {q : ℚ} (h : 0 ≤ q) : 0 ≤ pyInt q := by
  unfold pyInt
  exact Int.tdiv_nonneg (Rat.num_nonneg.mpr h) (by exact_mod_cast (Nat.zero_le _))

/-- The resize-if-needed step lands exactly on the target size. -/
theorem resize_if_size (q : PImage) (target : Nat × Nat) :
    (if (q.width, q.height) ≠ target then resizeImg q target.1 target.2 else q).width
        = target.1 ∧
    (if (q.width, q.height) ≠ target then resizeImg q target.1 target.2 else q).height
        = target.2 := by
  split
  · exact ⟨rfl, rfl⟩
  · rename_i h
    rw [not_not, Prod.ext_iff] at h
    exact h

/-- The step `overlay_prepare_photo` always produces exactly the target size. -/
theorem overlay_prepare_photo_size (photo : PImage) (target : Nat × Nat) :
    (overlay_prepare_photo photo target).width = target.1 ∧
    (overlay_prepare_photo photo target).height = target.2 := by
  unfold overlay_prepare_photo
  exact resize_if_size _ target

/-- The step `overlay_prepare_frame` always produces exactly the target size. -/
theorem overlay_prepare_frame_size (frame : PImage) (target : Nat × Nat) :
    (overlay_prepare_frame frame target).width = target.1 ∧
    (overlay_prepare_frame frame target).height = target.2 := by
  unfold overlay_prepare_frame
  exact resize_if_size _ target

/-- The canvas-or-photo step keeps the target size. -/
theorem base_if_size (p : PImage) (target : Nat × Nat)
    (h1 : p.width = target.1) (h2 : p.height = target.2) :
    (if p.mode = PMode.RGBA then p
      else pasteNoMask (newImage PMode.RGBA target ⟨0, 0, 0, 0⟩) p 0 0).width
        = target.1 ∧
    (if p.mode = PMode.RGBA then p
      else pasteNoMask (newImage PMode.RGBA target ⟨0, 0, 0, 0⟩) p 0 0).height
        = target.2 := by
  split
  · exact ⟨h1, h2⟩
  · exact ⟨rfl, rfl⟩

/-- The photo layer of the two-layer composite has exactly the target
size. -/
theorem overlay_base_size (photo : PImage) (target : Nat × Nat) :
    (overlay_base photo target).width = target.1 ∧
    (overlay_base photo target).height = target.2 := by
  unfold overlay_base
  exact base_if_size _ target (overlay_prepare_photo_size photo target).1
    (overlay_prepare_photo_size photo target).2

/-- The full two-layer composite has exactly the target size. -/
theorem overlay_compose_size (photo frame : PImage) (target : Nat × Nat) :
    (overlay_compose photo frame target).width = target.1 ∧
    (overlay_compose photo frame target).height = target.2 := by
  unfold overlay_compose
  exact overlay_base_size photo target

/-- On decoded inputs the two-layer pipeline always succeeds, with the
packaged composite. -/
theorem overlay_ok (photo frame : PImage) (output_size : String)
    (cloud : Bool) (root u : String) :
    overlay_frame_on_photo (Except.ok photo) (Except.ok frame) output_size cloud root u =
      Except.ok (mkOverlayOutput cloud root u
        (overlay_compose photo frame (size_map_get output_size))) := rfl

theorem pilResize_ok (im : PImage) {w h : ℤ} (hw : 0 ≤ w) (hh : 0 ≤ h) :
    pilResize im w h = Except.ok (resizeImg im w.toNat h.toNat) := by
  unfold pilResize
  rw [if_neg]
  push_neg
  exact ⟨hw, hh⟩

theorem cropImg_width (im : PImage) (l t r b : ℤ) :
    (cropImg im l t r b).width = (r - l).toNat := rfl

theorem cropImg_height (im : PImage) (l t r b : ℤ) :
    (cropImg im l t r b).height = (b - t).toNat := rfl

/-- Dimensions of a `resize_and_crop` result. -/
def racSize (e : Except String PImage) : Option (Nat × Nat) :=
  match e with
  | Except.ok im => some (im.width, im.height)
  | Except.error _ => none

/-- A fixed-color test raster used to instantiate the theorems below on
concrete inputs. -/
def testImg (w h : Nat) (m : PMode) : PImage :=
  ⟨w, h, m, fun _ _ => ⟨10, 20, 30, 255⟩⟩

/-- A fully transparent RGBA test raster. -/
def clearImg (w h : Nat) : PImage :=
  ⟨w, h, PMode.RGBA, fun _ _ => ⟨0, 0, 0, 0⟩⟩

/-- C10: the `output_size` parameter of `create_three_layer_poster` is never
read in its body: with the poster/profile/frame inputs, placement, crop
shape, storage flag and random filename token all fixed, any two values of
`output_size` produce the identical result — the target size is determined
solely by the poster's dimensions. -/
theorem C10_output_size_unused (posterSrc profileSrc frameSrc : Except String PImage)
    (pos : ProfilePosition) (os1 os2 crop_shape : String) (cloud : Bool)
    (u : String) :
    create_three_layer_poster posterSrc profileSrc frameSrc pos os1 crop_shape cloud u =
      create_three_layer_poster posterSrc profileSrc frameSrc pos os2 crop_shape cloud u :=
  rfl

/-- C4, counterexample: with local storage configured (the non-Cloudinary
branch, utils.py lines 356–367) a successful two-layer composition is not
returned as an in-memory buffer — the core itself writes the PNG under
`MEDIA_ROOT` and returns a relative path. -/
theorem C4_counterexample_local_write :
    isBufferResult (overlay_frame_on_photo (Except.ok (testImg 2 2 PMode.RGB))
      (Except.ok (testImg 2 2 PMode.RGBA)) "instagram_post" false "media" "u0")
      = some false := rfl

/-- C4, amended: the filename is randomly generated and unique in both
branches, but only when Cloudinary storage is configured is the result an
in-memory `ContentFile` buffer; with local storage the core itself writes
the image to `MEDIA_ROOT/generated/<uuid>.png` and returns the relative
path. -/
theorem C4_storage_branches (photo frame : PImage) (os root u : String) :
    overlay_frame_on_photo (Except.ok photo) (Except.ok frame) os true root u =
      Except.ok (OverlayOutput.contentFile
        ⟨overlay_compose photo frame (size_map_get os), "PNG",
          "generated/" ++ (u ++ ".png")⟩) ∧
    overlay_frame_on_photo (Except.ok photo) (Except.ok frame) os false root u =
      Except.ok (OverlayOutput.savedFile
        (root ++ "/" ++ ("generated/" ++ (u ++ ".png")))
        ("generated/" ++ (u ++ ".png"))
        (overlay_compose photo frame (size_map_get os))) :=
  ⟨rfl, rfl⟩

theorem exceptWrap {α : Type} (e : Except String α) (p : String) :
    (∃ r, e.mapError (fun m => p ++ m) = Except.ok r) ∨
    (∃ m, e.mapError (fun m => p ++ m) = Except.error (p ++ m)) := by
  cases e with
  | ok r => exact Or.inl ⟨r, rfl⟩
  | error m => exact Or.inr ⟨m, rfl⟩

/-- C9: each compositor call either fully succeeds with exactly one result,
or fails with a single wrapped error whose message carries the original
cause's message after the pipeline's fixed prefix; there is no other
outcome and no partial output. -/
theorem C9_atomic_wrapped_errors
    (posterSrc profileSrc frameSrc photoSrc frameSrc2 : Except String PImage)
    (pos : ProfilePosition) (os cs : String) (cloud : Bool) (root u : String) :
    ((∃ r, create_three_layer_poster posterSrc profileSrc frameSrc pos os cs cloud u
        = Except.ok r) ∨
     (∃ m, create_three_layer_poster posterSrc profileSrc frameSrc pos os cs cloud u
        = Except.error ("Error creating 3-layer poster: " ++ m))) ∧
    ((∃ r, overlay_frame_on_photo photoSrc frameSrc2 os cloud root u
        = Except.ok r) ∨
     (∃ m, overlay_frame_on_photo photoSrc frameSrc2 os cloud root u
        = Except.error ("Error processing images: " ++ m))) := by
  constructor
  · exact exceptWrap _ "Error creating 3-layer poster: "
  · exact exceptWrap _ "Error processing images: "

/-- C8: the mask selection of the three-layer compositor silently falls
back to a circular mask for every crop shape outside
{circle, square, rectangle}, and for the square and rectangle shapes the
rounded-rectangle mask's corner radius is `int(0.1 * width)` — 10% of the
footprint width. -/
theorem C8_mask_selection (shape : String) (w h : Nat)
    (hs : shape ∉ ["circle", "square", "rectangle"]) :
    threeLayerMask shape w h = create_circular_mask (w, h) ∧
    threeLayerMask "square" w h =
      create_rounded_rectangle_mask (w, h) (pyInt ((w : ℚ) * (1 / 10))) ∧
    threeLayerMask "rectangle" w h =
      create_rounded_rectangle_mask (w, h) (pyInt ((w : ℚ) * (1 / 10))) := by
  have h1 : shape ≠ "circle" := fun hh => hs (by simp [hh])
  have h2 : shape ≠ "square" := fun hh => hs (by simp [hh])
  have h3 : shape ≠ "rectangle" := fun hh => hs (by simp [hh])
  refine ⟨?_, ?_, ?_⟩
  · unfold threeLayerMask
    rw [if_neg h1, if_neg h2, if_neg h3]
  · unfold threeLayerMask
    rw [if_neg (by decide : ¬("square" = "circle")), if_pos rfl]
  · unfold threeLayerMask
    rw [if_neg (by decide : ¬("rectangle" = "circle")),
      if_neg (by decide : ¬("rectangle" = "square")), if_pos rfl]

/-- Witness for C8 at the unrecognized shape `"hexagon"` and a 40×40
footprint. -/
theorem C8_mask_selection_witness :
    ("hexagon" ∉ ["circle", "square", "rectangle"]) ∧
    (threeLayerMask "hexagon" 40 40 = create_circular_mask (40, 40) ∧
     threeLayerMask "square" 40 40 =
       create_rounded_rectangle_mask (40, 40) (pyInt ((40 : ℚ) * (1 / 10))) ∧
     threeLayerMask "rectangle" 40 40 =
       create_rounded_rectangle_mask (40, 40) (pyInt ((40 : ℚ) * (1 / 10)))) :=
  ⟨by decide, C8_mask_selection "hexagon" 40 40 (by decide)⟩

/-- C5: the three-layer profile footprint is
`base = int(min(target) * 0.3)`; circle/square get a `base*scale` square,
rectangle gets height `int(base*scale*1.3)`; and for circle/square, scale
2.0 versus 1.0 doubles both footprint dimensions exactly. -/
theorem C5_footprint_scaling (tw th : Nat) (s : ℚ) (cs : String)
    (hcs : cs = "circle" ∨ cs = "square") :
    base_profile_size (tw, th) = pyInt (((3 : ℚ) / 10) * ((min tw th : Nat) : ℚ)) ∧
    profileFootprint cs s (base_profile_size (tw, th)) =
      (pyInt ((base_profile_size (tw, th) : ℚ) * s),
        pyInt ((base_profile_size (tw, th) : ℚ) * s)) ∧
    profileFootprint "rectangle" s (base_profile_size (tw, th)) =
      (pyInt ((base_profile_size (tw, th) : ℚ) * s),
        pyInt ((base_profile_size (tw, th) : ℚ) * s * (13 / 10))) ∧
    profileFootprint cs 2 (base_profile_size (tw, th)) =
      (2 * (profileFootprint cs 1 (base_profile_size (tw, th))).1,
        2 * (profileFootprint cs 1 (base_profile_size (tw, th))).2) := by
  have hne : cs ≠ "rectangle" := by
    rcases hcs with h | h <;> subst h <;> decide
  refine ⟨?_, ?_, ?_, ?_⟩
  · unfold base_profile_size
    rw [mul_comm]
  · unfold profileFootprint
    rw [if_neg hne]
  · unfold profileFootprint
    rw [if_pos rfl]
  · unfold profileFootprint
    rw [if_neg hne, if_neg hne]
    have h2 : pyInt ((base_profile_size (tw, th) : ℚ) * 2)
        = 2 * base_profile_size (tw, th) := by
      have hc : ((base_profile_size (tw, th) : ℚ) * 2)
          = (((2 * base_profile_size (tw, th) : ℤ)) : ℚ) := by
        push_cast
        ring
      rw [hc, pyInt_intCast]
    have h1 : pyInt ((base_profile_size (tw, th) : ℚ) * 1)
        = base_profile_size (tw, th) := by
      rw [mul_one, pyInt_intCast]
    rw [h2, h1]

/-- Witness for C5 at a 100×50 target, scale 1/2, shape circle. -/
theorem C5_footprint_scaling_witness :
    ("circle" = "circle" ∨ "circle" = "square") ∧
    (base_profile_size (100, 50) = pyInt (((3 : ℚ) / 10) * ((min 100 50 : Nat) : ℚ)) ∧
     profileFootprint "circle" (1 / 2) (base_profile_size (100, 50)) =
       (pyInt ((base_profile_size (100, 50) : ℚ) * (1 / 2)),
         pyInt ((base_profile_size (100, 50) : ℚ) * (1 / 2))) ∧
     profileFootprint "rectangle" (1 / 2) (base_profile_size (100, 50)) =
       (pyInt ((base_profile_size (100, 50) : ℚ) * (1 / 2)),
         pyInt ((base_profile_size (100, 50) : ℚ) * (1 / 2) * (13 / 10))) ∧
     profileFootprint "circle" 2 (base_profile_size (100, 50)) =
       (2 * (profileFootprint "circle" 1 (base_profile_size (100, 50))).1,
         2 * (profileFootprint "circle" 1 (base_profile_size (100, 50))).2)) :=
  ⟨Or.inl rfl, C5_footprint_scaling 100 50 (1 / 2) "circle" (Or.inl rfl)⟩

/-- C2: for positive source and target dimensions, `resize_and_crop`
returns an image whose dimensions exactly equal the target (uniform cover
scale in the branch the aspect comparison selects, then a center crop of
exactly the target size). -/
theorem C2_resize_and_crop_dims (image : PImage) (tw th : Nat)
    (hw : 0 < image.width) (hh : 0 < image.height)
    (htw : 0 < tw) (hth : 0 < th) :
    racSize (resize_and_crop image (tw, th)) = some (tw, th) := by
  simp only [resize_and_crop]
  rw [if_neg (by omega : ¬((tw, th).2 = 0 ∨ image.height = 0))]
  split
  · -- wider than target: height matches, crop width
    rw [pilResize_ok image (pyInt_nonneg (by positivity)) (by positivity)]
    simp only [racSize, cropImg_width, cropImg_height, Option.some.injEq,
      Prod.mk.injEq]
    omega
  · -- taller than target: width matches, crop height
    rw [if_neg (by
      have h1 : ((image.width : ℚ)) ≠ 0 := by positivity
      have h2 : ((image.height : ℚ)) ≠ 0 := by positivity
      exact div_ne_zero h1 h2)]
    rw [pilResize_ok image (by positivity) (pyInt_nonneg (by positivity))]
    simp only [racSize, cropImg_width, cropImg_height, Option.some.injEq,
      Prod.mk.injEq]
    omega

/-- Witness for C2 on a 5×3 RGB image resized into a 4×4 target. -/
theorem C2_resize_and_crop_dims_witness :
    (0 < (testImg 5 3 PMode.RGB).width ∧ 0 < (testImg 5 3 PMode.RGB).height ∧
      0 < 4 ∧ 0 < 4) ∧
    racSize (resize_and_crop (testImg 5 3 PMode.RGB) (4, 4)) = some (4, 4) :=
  ⟨⟨by decide, by decide, by decide, by decide⟩,
    C2_resize_and_crop_dims (testImg 5 3 PMode.RGB) 4 4
      (by decide) (by decide) (by decide) (by decide)⟩

/-- C3: any output-size name outside the preset table resolves, without an
error, to the `instagram_post` default of 1080×1080: the two-layer pipeline
behaves identically to `instagram_post` and its result is 1080×1080. -/
theorem C3_unknown_size_fallback (photo frame : PImage) (os : String)
    (cloud : Bool) (root u : String)
    (hos : os ∉ ["instagram_post", "instagram_story", "whatsapp_dp"]) :
    size_map_get os = (1080, 1080) ∧
    overlay_frame_on_photo (Except.ok photo) (Except.ok frame) os cloud root u =
      overlay_frame_on_photo (Except.ok photo) (Except.ok frame)
        "instagram_post" cloud root u ∧
    overlayResultSize (overlay_frame_on_photo (Except.ok photo) (Except.ok frame)
        os cloud root u) = some (1080, 1080) := by
  have h1 : os ≠ "instagram_post" := fun hh => hos (by simp [hh])
  have h2 : os ≠ "instagram_story" := fun hh => hos (by simp [hh])
  have h3 : os ≠ "whatsapp_dp" := fun hh => hos (by simp [hh])
  have hm : size_map_get os = (1080, 1080) := by
    unfold size_map_get
    rw [if_neg h1, if_neg h2, if_neg h3]
  refine ⟨hm, ?_, ?_⟩
  · rw [overlay_ok, overlay_ok, hm]
    rfl
  · rw [overlay_ok, hm]
    have hs := overlay_compose_size photo frame (1080, 1080)
    unfold mkOverlayOutput
    split
    · simp only [overlayResultSize]
      rw [hs.1, hs.2]
    · simp only [overlayResultSize]
      rw [hs.1, hs.2]

/-- Witness for C3 at `output_size='unknown_value'`. -/
theorem C3_unknown_size_fallback_witness :
    ("unknown_value" ∉ ["instagram_post", "instagram_story", "whatsapp_dp"]) ∧
    (size_map_get "unknown_value" = (1080, 1080) ∧
     overlay_frame_on_photo (Except.ok (testImg 2 3 PMode.RGB))
         (Except.ok (testImg 2 3 PMode.RGBA)) "unknown_value" true "m" "u3" =
       overlay_frame_on_photo (Except.ok (testImg 2 3 PMode.RGB))
         (Except.ok (testImg 2 3 PMode.RGBA)) "instagram_post" true "m" "u3" ∧
     overlayResultSize (overlay_frame_on_photo (Except.ok (testImg 2 3 PMode.RGB))
         (Except.ok (testImg 2 3 PMode.RGBA)) "unknown_value" true "m" "u3") =
       some (1080, 1080)) :=
  ⟨by decide, C3_unknown_size_fallback _ _ _ _ _ _ (by decide)⟩

/-- A successful `create3_compose` canvas has exactly the poster's
dimensions. -/
theorem create3_compose_size (poster profile frame : PImage)
    (pos : ProfilePosition) (cs : String) (img : PImage)
    (h : create3_compose poster profile frame pos cs = Except.ok img) :
    img.width = poster.width ∧ img.height = poster.height := by
  simp only [create3_compose] at h
  split at h
  · exact absurd h (by simp)
  · injection h with h
    subst h
    constructor <;> (split <;> rfl)

/-- C1: whenever the three-layer compositor succeeds, the output image has
exactly the poster's own native pixel dimensions — the canvas is created at
the poster's size, the frame is resized to it when it differs, and no
preset lookup changes it. -/
theorem C1_output_matches_poster (poster : PImage)
    (profileSrc frameSrc : Except String PImage) (pos : ProfilePosition)
    (os cs : String) (cloud : Bool) (u : String)
    (h : exceptOk (create_three_layer_poster (Except.ok poster) profileSrc frameSrc
        pos os cs cloud u) = true) :
    threeResultSize (create_three_layer_poster (Except.ok poster) profileSrc frameSrc
        pos os cs cloud u) = some (poster.width, poster.height) := by
  unfold create_three_layer_poster at h ⊢
  cases profileSrc with
  | error e => simp [exceptOk, Except.mapError] at h
  | ok profile =>
    cases frameSrc with
    | error e => simp [exceptOk, Except.mapError] at h
    | ok frame =>
      rcases hc : create3_compose poster profile frame pos cs with e | canvas
      · simp [hc, exceptOk, Except.mapError] at h
      · have hs := create3_compose_size poster profile frame pos cs canvas hc
        cases cloud with
        | true => simp [hc, threeResultSize, Except.mapError, hs.1, hs.2]
        | false => simp [hc, threeResultSize, Except.mapError, hs.1, hs.2]

/-- Witness for C1 on a 4×6 poster with a 3×2 profile. -/
theorem C1_output_matches_poster_witness :
    exceptOk (create_three_layer_poster (Except.ok (testImg 4 6 PMode.RGB))
        (Except.ok (testImg 3 2 PMode.RGB)) (Except.ok (testImg 4 6 PMode.RGBA))
        ⟨some 2, some 3, some 1, some 0⟩ "square_1080" "circle" true "u1") = true ∧
    threeResultSize (create_three_layer_poster (Except.ok (testImg 4 6 PMode.RGB))
        (Except.ok (testImg 3 2 PMode.RGB)) (Except.ok (testImg 4 6 PMode.RGBA))
        ⟨some 2, some 3, some 1, some 0⟩ "square_1080" "circle" true "u1") =
      some (4, 6) :=
  ⟨by decide!, C1_output_matches_poster _ _ _ _ _ _ _ _ (by decide!)⟩

/-- Whether `create3_compose` succeeds never depends on the placement
center: the x/y coordinates only enter the paste origin of the final
composite. -/
theorem create3_compose_isOk_xy (poster profile frame : PImage)
    (a b a' b' s r : Option ℚ) (cs : String) :
    exceptOk (create3_compose poster profile frame ⟨a, b, s, r⟩ cs) =
      exceptOk (create3_compose poster profile frame ⟨a', b', s, r⟩ cs) := by
  simp only [create3_compose]
  split <;> rfl

/-- C7: the three-layer paste origin is the placement center minus half the
footprint (truncated division), and no bounds clamping is performed: the
paste operation keeps the canvas dimensions for every origin, leaves every
canvas pixel outside the overlap untouched (off-canvas placements simply
clip), and whether the compositor succeeds is independent of the placement
center. -/
theorem C7_paste_origin_and_clipping
    (cx wfp : ℤ) (hw : 0 ≤ wfp)
    (dst src m : PImage) (ox oy : ℤ) (i j : Nat)
    (hout : ¬(ox ≤ (i : ℤ) ∧ (i : ℤ) < ox + src.width ∧
        oy ≤ (j : ℤ) ∧ (j : ℤ) < oy + src.height))
    (posterSrc profileSrc frameSrc : Except String PImage)
    (a b a' b' s r : Option ℚ) (os cs : String) (cloud : Bool) (u : String) :
    pasteOriginCoord ((cx : ℤ) : ℚ) wfp = cx - wfp.tdiv 2 ∧
    (pasteMask dst src ox oy m).width = dst.width ∧
    (pasteMask dst src ox oy m).height = dst.height ∧
    (pasteMask dst src ox oy m).px i j = dst.px i j ∧
    exceptOk (create_three_layer_poster posterSrc profileSrc frameSrc
        ⟨a, b, s, r⟩ os cs cloud u) =
      exceptOk (create_three_layer_poster posterSrc profileSrc frameSrc
        ⟨a', b', s, r⟩ os cs cloud u) := by
  refine ⟨?_, rfl, rfl, ?_, ?_⟩
  · unfold pasteOriginCoord
    have hc : ((cx : ℚ) - ((wfp.fdiv 2 : ℤ) : ℚ)) = (((cx - wfp.fdiv 2 : ℤ)) : ℚ) := by
      push_cast
      ring
    rw [hc, pyInt_intCast, Int.fdiv_eq_ediv _ (by norm_num),
      ← Int.tdiv_eq_ediv hw (by norm_num)]
  · unfold pasteMask
    dsimp only
    rw [if_neg]
    intro hcon
    exact hout ⟨hcon.2.2.1, hcon.2.2.2.1, hcon.2.2.2.2.1, hcon.2.2.2.2.2⟩
  · unfold create_three_layer_poster
    cases posterSrc with
    | error e => rfl
    | ok poster =>
      cases profileSrc with
      | error e => rfl
      | ok profile =>
        cases frameSrc with
        | error e => rfl
        | ok frame =>
          have hxy := create3_compose_isOk_xy poster profile frame a b a' b' s r cs
          rcases hA : create3_compose poster profile frame ⟨a, b, s, r⟩ cs with e1 | c1 <;>
            rcases hB : create3_compose poster profile frame ⟨a', b', s, r⟩ cs with e2 | c2 <;>
            rw [hA, hB] at hxy
          · simp [hA, hB, Except.mapError, exceptOk]
          · simp [exceptOk] at hxy
          · simp [exceptOk] at hxy
          · simp [hA, hB, Except.mapError, exceptOk, ite_self]

/-- Witness for C7: center 9 with footprint width 5; a paste origin pushed
off-canvas to the left (-10); two placements differing only in center. -/
theorem C7_paste_origin_and_clipping_witness :
    pasteOriginCoord ((9 : ℤ) : ℚ) 5 = 9 - (5 : ℤ).tdiv 2 ∧
    (pasteMask (testImg 4 4 PMode.RGBA) (testImg 2 2 PMode.RGBA) (-10) 0
        (clearImg 2 2)).width = (testImg 4 4 PMode.RGBA).width ∧
    (pasteMask (testImg 4 4 PMode.RGBA) (testImg 2 2 PMode.RGBA) (-10) 0
        (clearImg 2 2)).height = (testImg 4 4 PMode.RGBA).height ∧
    (pasteMask (testImg 4 4 PMode.RGBA) (testImg 2 2 PMode.RGBA) (-10) 0
        (clearImg 2 2)).px 0 0 = (testImg 4 4 PMode.RGBA).px 0 0 ∧
    exceptOk (create_three_layer_poster (Except.ok (testImg 4 6 PMode.RGB))
        (Except.ok (testImg 3 2 PMode.RGB)) (Except.ok (testImg 1 1 PMode.RGBA))
        ⟨some 1, some 2, some 1, some 0⟩ "x" "circle" false "u7") =
      exceptOk (create_three_layer_poster (Except.ok (testImg 4 6 PMode.RGB))
        (Except.ok (testImg 3 2 PMode.RGB)) (Except.ok (testImg 1 1 PMode.RGBA))
        ⟨some 100, some (-50), some 1, some 0⟩ "x" "circle" false "u7") :=
  C7_paste_origin_and_clipping 9 5 (by decide)
    (testImg 4 4 PMode.RGBA) (testImg 2 2 PMode.RGBA) (clearImg 2 2) (-10) 0 0 0
    (by decide)
    (Except.ok (testImg 4 6 PMode.RGB)) (Except.ok (testImg 3 2 PMode.RGB))
    (Except.ok (testImg 1 1 PMode.RGBA))
    (some 1) (some 2) (some 100) (some (-50)) (some 1) (some 0)
    "x" "circle" false "u7"

theorem blendChan_zero (d s : Nat) : blendChan d s 0 = d := by
  unfold blendChan
  simp

/-- Pasting with an everywhere-zero mask leaves the destination unchanged:
the blend with mask value 0 keeps every destination pixel. -/
theorem pasteMask_zero_mask (dst src m : PImage) (ox oy : ℤ)
    (h : ∀ i j, maskVal m i j = 0) :
    pasteMask dst src ox oy m = dst := by
  rw [PImage.ext_iff]
  refine ⟨rfl, rfl, rfl, ?_⟩
  funext i j
  show (pasteMask dst src ox oy m).px i j = dst.px i j
  unfold pasteMask
  dsimp only
  split
  · rw [h]
    show blendPx (dst.px i j) _ 0 = dst.px i j
    unfold blendPx
    rw [blendChan_zero, blendChan_zero, blendChan_zero, blendChan_zero]
  · rfl

/-- Frame preparation preserves RGBA mode and an everywhere-zero alpha
band: the RGBA conversion is skipped and resampling only samples source
pixels. -/
theorem prepare_frame_alpha (frame : PImage) (t : Nat × Nat)
    (hmode : frame.mode = PMode.RGBA)
    (halpha : ∀ i j, (frame.px i j).a = 0) :
    (overlay_prepare_frame frame t).mode = PMode.RGBA ∧
    ∀ i j, ((overlay_prepare_frame frame t).px i j).a = 0 := by
  unfold overlay_prepare_frame
  have hnot : ¬(frame.mode ≠ PMode.RGBA) := by simp [hmode]
  simp only [if_neg hnot]
  constructor
  · split
    · exact hmode
    · exact hmode
  · intro i j
    split
    · exact halpha _ _
    · exact halpha _ _

/-- C6: overlaying a frame whose alpha channel is 0 at every pixel is the
identity on the photo layer: the two-layer result is exactly the resized
photo layer (`overlay_base`, the composite built from the photo alone
before the frame paste). -/
theorem C6_transparent_frame_identity (photo frame : PImage) (os : String)
    (cloud : Bool) (root u : String)
    (hmode : frame.mode = PMode.RGBA)
    (halpha : ∀ i j, (frame.px i j).a = 0) :
    overlayResultImage (overlay_frame_on_photo (Except.ok photo) (Except.ok frame)
        os cloud root u) = some (overlay_base photo (size_map_get os)) := by
  rw [overlay_ok]
  have hprep := prepare_frame_alpha frame (size_map_get os) hmode halpha
  have hzero : ∀ i j,
      maskVal (overlay_prepare_frame frame (size_map_get os)) i j = 0 := by
    intro i j
    unfold maskVal
    rw [if_pos hprep.1]
    exact hprep.2 i j
  have hco : overlay_compose photo frame (size_map_get os)
      = overlay_base photo (size_map_get os) := by
    unfold overlay_compose
    exact pasteMask_zero_mask _ _ _ 0 0 hzero
  unfold mkOverlayOutput
  split
  · simp only [overlayResultImage, hco]
  · simp only [overlayResultImage, hco]

/-- Witness for C6 on a 5×5 RGB photo and an 8×8 fully transparent RGBA
frame. -/
theorem C6_transparent_frame_identity_witness :
    overlayResultImage (overlay_frame_on_photo (Except.ok (testImg 5 5 PMode.RGB))
        (Except.ok (clearImg 8 8)) "whatsapp_dp" true "m" "u2") =
      some (overlay_base (testImg 5 5 PMode.RGB) (size_map_get "whatsapp_dp")) :=
  C6_transparent_frame_identity (testImg 5 5 PMode.RGB) (clearImg 8 8)
    "whatsapp_dp" true "m" "u2" rfl (fun _ _ => rfl)
